import Mathlib

/-!
Verification development for the predictive-maintenance backend
(`src/trial.py`).  The Python program is shallowly embedded: numeric
telemetry values become rationals, Python dict lookups with defaults
become `Option` getters, the Mongo collections become lists of
documents, and the handler `run_maintenance` becomes a pure state
transformer.  Python `int(...)` (truncation toward zero) is embedded
as `pyInt`.
-/

namespace Trial

/-- The string stored in the `engineTemp` field: a numeral, optionally
carrying a `°C` unit suffix (the code does `.replace("°C","")` before
`float(...)`, so only the numeric value survives parsing). -/
inductive TempStr where
  | plain (v : ℚ)
  | withUnit (v : ℚ)
deriving DecidableEq

/-- `float(s.replace("°C",""))`: strip the unit suffix if present and
parse the numeral. -/
def TempStr.strip : TempStr → ℚ
  | .plain v => v
  | .withUnit v => v

/-- Rendering of the stored value back to text (Python f-string of the
raw stored field). -/
def TempStr.render : TempStr → String
  | .plain v => toString v
  | .withUnit v => toString v ++ "°C"

/-- One telemetry reading, `data[0]` of the request body.  Each sensor
field may be absent (`telemetry.get` with a default).  `id` models the
`telemetry["id"] = FIXED_VEHICLE_ID` mutation done by the handler. -/
structure Telemetry where
  engineTemp : Option TempStr
  oilPressure : Option ℚ
  batteryVoltage : Option ℚ
  tirePressure : Option ℚ
  vibration : Option ℚ
  id : Option String
deriving DecidableEq

def FIXED_VEHICLE_ID : String := "V101"

/-- `float(telemetry.get("engineTemp", "90").replace("°C",""))`. -/
def getEngineTemp (t : Telemetry) : ℚ :=
  (t.engineTemp.getD (TempStr.plain 90)).strip

/-- `telemetry.get("oilPressure", 30)`. -/
def getOilPressure (t : Telemetry) : ℚ :=
  t.oilPressure.getD 30

/-- `float(telemetry.get("batteryVoltage", 12.6))`. -/
def getBatteryVoltage (t : Telemetry) : ℚ :=
  t.batteryVoltage.getD 12.6

/-- An issue record as appended to the `issues` list. -/
structure Issue where
  name : String
  severity : String
  confidence : ℚ
  recommended_action : String
deriving DecidableEq

def engineTempIssue : Issue :=
  ⟨"Engine Temperature High", "high", 0.9, "Check cooling system"⟩

def oilPressureIssue : Issue :=
  ⟨"Oil Pressure Low", "high", 0.85, "Check oil level"⟩

def batteryVoltageIssue : Issue :=
  ⟨"Battery Voltage Low", "medium", 0.75, "Recharge or replace battery"⟩

def tirePressureIssue : Issue :=
  ⟨"Tire Pressure Low", "medium", 0.7, "Inflate tires"⟩

/-- The four threshold rules of `run_maintenance` (lines 204-235), in
source order; each appends its issue when its condition holds. -/
def detectIssues (t : Telemetry) : List Issue :=
  (if getEngineTemp t > 100 then [engineTempIssue] else []) ++
  (if getOilPressure t < 20 then [oilPressureIssue] else []) ++
  (if getBatteryVoltage t < 12 then [batteryVoltageIssue] else []) ++
  (if t.tirePressure.getD 32 < 30 then [tirePressureIssue] else [])

/-- Python `int(x)`: truncation toward zero. -/
def pyInt (q : ℚ) : ℤ :=
  if 0 ≤ q then ⌊q⌋ else ⌈q⌉

/-- `calculate_brake_health(vibration=None)`. -/
def calculate_brake_health (vibration : Option ℚ) : ℚ :=
  match vibration with
  | none => 75
  | some v => if v < 3 then 95 else if v < 5 then 80 else if v < 7 then 65 else 40

/-- The `component_health` dict. -/
structure ComponentHealth where
  engineHealth : ℚ
  battery : ℤ
  brakes : ℚ
  tirePressure : String
deriving DecidableEq

/-- Lines 252-257 of `run_maintenance`. -/
def componentHealth (t : Telemetry) : ComponentHealth :=
  { engineHealth := max 0 (100 - (getEngineTemp t - 90) * 2)
    battery := pyInt (getBatteryVoltage t / 12.6 * 100)
    brakes := calculate_brake_health t.vibration
    tirePressure := if t.tirePressure.getD 30 < 30 then "Low" else "Normal" }

/-- Lines 259-264: `overall_health = int((engineHealth + battery +
brakes + (100 if tirePressure label is Normal else 70)) / 4)`. -/
def overallHealth (t : Telemetry) : ℤ :=
  pyInt (((componentHealth t).engineHealth + ((componentHealth t).battery : ℚ) +
    (componentHealth t).brakes +
    (if (componentHealth t).tirePressure = "Normal" then 100 else 70)) / 4)

/-- Line 238: `", ".join(f"{name} — {severity}")`, or the fallback text. -/
def diagnosisText (issues : List Issue) : String :=
  if issues.isEmpty then "No issues detected."
  else String.intercalate ", " (issues.map (fun i => i.name ++ " — " ++ i.severity))

/-- Lines 242-247: accumulated customer-facing message. -/
def customerMessage (issues : List Issue) : String :=
  if issues.isEmpty then "Everything is normal."
  else issues.foldl
    (fun acc i => acc ++ i.name ++ " (" ++ i.severity ++ "): " ++ i.recommended_action ++ ". ") ""

/-- Line 269: `"Tomorrow 10 AM" if issues else "No appointment needed"`. -/
def scheduleText (issues : List Issue) : String :=
  if issues.isEmpty then "No appointment needed" else "Tomorrow 10 AM"

/-- Lines 296 and 332: feedback text depends only on issue presence. -/
def feedbackText (issues : List Issue) : String :=
  if issues.isEmpty then "System operating normally."
  else "Immediate maintenance recommended due to detected issues."

/-- Python `s.split()[0]`: the first whitespace-delimited token (the
schedule strings here carry no leading whitespace). -/
def firstToken (s : String) : String :=
  String.mk (s.toList.takeWhile (fun c => c != ' '))

/-- One archived history record `{timestamp, telemetry, issues}`.
Timestamps are abstracted to naturals. -/
structure HistoryEntry where
  timestamp : ℕ
  telemetry : Telemetry
  issues : List Issue
deriving DecidableEq

/-- The workflow document written by `replace_one` (lines 285-301). -/
structure Snapshot where
  vehicle_id : String
  telemetry : Telemetry
  issues : List Issue
  component_health : ComponentHealth
  overall_health_score : ℤ
  diagnosis_summary : String
  customer_friendly_message : String
  predicted_schedule : String
  feedback : String
  last_updated : ℕ
  history : List HistoryEntry
deriving DecidableEq

/-- The `maintenance_workflow` collection, as an ordered list of
documents. -/
abbrev WorkflowDB := List Snapshot

/-- `workflow_collection.find_one({"vehicle_id": vid})`: first matching
document. -/
def findOneWorkflow (db : WorkflowDB) (vid : String) : Option Snapshot :=
  db.find? (fun d => d.vehicle_id == vid)

/-- `workflow_collection.replace_one({"vehicle_id": vid}, doc,
upsert=True)`: replace the first matching document, or insert when no
document matches. -/
def replaceOneWorkflow : WorkflowDB → String → Snapshot → WorkflowDB
  | [], _, doc => [doc]
  | d :: ds, vid, doc =>
    if d.vehicle_id == vid then doc :: ds else d :: replaceOneWorkflow ds vid doc

/-- An appointment document as inserted by `run_maintenance`. -/
structure Appt where
  vehicle_id : String
  service_type : String
  date : String
  time : String
  status : String
  recommended_by_ai : Bool
  created_at : ℕ
deriving DecidableEq

/-- The `appointments` collection. -/
abbrev ApptDB := List Appt

/-- The filter of lines 308-313: same vehicle, date, time and Pending
status. -/
def apptMatches (vid date tm : String) (a : Appt) : Bool :=
  a.vehicle_id == vid && a.date == date && a.time == tm && a.status == "Pending"

/-- Lines 308-313: `appointment_collection.find_one` with the
vehicle/date/time/Pending filter. -/
def findPendingAppt (db : ApptDB) (vid date tm : String) : Option Appt :=
  db.find? (apptMatches vid date tm)

/-- The two Mongo collections the handler touches. -/
structure SysState where
  workflowDB : WorkflowDB
  apptDB : ApptDB
deriving DecidableEq

/-- The snapshot document built at lines 287-299; it depends only on
the current run's (id-stamped) telemetry and timestamp, plus the
extended history. -/
def buildSnapshot (t : Telemetry) (now : ℕ) (history : List HistoryEntry) : Snapshot :=
  { vehicle_id := FIXED_VEHICLE_ID
    telemetry := t
    issues := detectIssues t
    component_health := componentHealth t
    overall_health_score := overallHealth t
    diagnosis_summary := diagnosisText (detectIssues t)
    customer_friendly_message := customerMessage (detectIssues t)
    predicted_schedule := scheduleText (detectIssues t)
    feedback := feedbackText (detectIssues t)
    last_updated := now
    history := history }

/-- The response body of the telemetry branch (lines 325-333). -/
structure RunResult where
  issues : List Issue
  anomalies : List Issue
  health_score : ℤ
  diagnosis_summary : String
  customer_message : String
  schedule : String
  feedback : String
deriving DecidableEq

/-- `run_maintenance` stamps the vehicle id onto the incoming reading
(line 201) before evaluating it. -/
def stamp (t : Telemetry) : Telemetry :=
  { t with id := some FIXED_VEHICLE_ID }

/-- Lines 273-274: the history carried over from the existing
snapshot, `existing.get("history", []) if existing else []`. -/
def storedHistory (db : WorkflowDB) : List HistoryEntry :=
  match findOneWorkflow db FIXED_VEHICLE_ID with
  | some d => d.history
  | none => []

/-- The telemetry-processing branch of `run_maintenance` (lines
200-333), as a pure state transformer over the two collections.  `now`
stands for `datetime.utcnow()`. -/
def run_maintenance (st : SysState) (raw : Telemetry) (now : ℕ) : SysState × RunResult :=
  let telemetry : Telemetry := stamp raw
  let issues := detectIssues telemetry
  let history := storedHistory st.workflowDB ++ [⟨now, telemetry, issues⟩]
  let wdb := replaceOneWorkflow st.workflowDB FIXED_VEHICLE_ID (buildSnapshot telemetry now history)
  let adb :=
    if issues.isEmpty then st.apptDB
    else
      match findPendingAppt st.apptDB FIXED_VEHICLE_ID (firstToken (scheduleText issues)) "10:00 AM" with
      | some _ => st.apptDB
      | none => st.apptDB ++
          [{ vehicle_id := FIXED_VEHICLE_ID
             service_type := String.intercalate ", " (issues.map (fun i => i.name))
             date := firstToken (scheduleText issues)
             time := "10:00 AM"
             status := "Pending"
             recommended_by_ai := true
             created_at := now }]
  (⟨wdb, adb⟩,
   { issues := issues
     anomalies := issues
     health_score := overallHealth telemetry
     diagnosis_summary := diagnosisText issues
     customer_message := customerMessage issues
     schedule := scheduleText issues
     feedback := feedbackText issues })

/-- A sequence of sequential evaluations: fold `run_maintenance` over a
list of (reading, timestamp) requests. -/
def runSeq (st : SysState) : List (Telemetry × ℕ) → SysState
  | [] => st
  | (r, n) :: rest => runSeq (run_maintenance st r n).1 rest

/-- Substring test on character lists, modelling Python `needle in hay`. -/
def subOf (needle : List Char) : List Char → Bool
  | [] => needle.isEmpty
  | c :: rest => needle.isPrefixOf (c :: rest) || subOf needle rest

/-- Python `pat in s` on strings. -/
def strContains (s pat : String) : Bool :=
  subOf pat.toList s.toList

/-- Python `s.lower()` (ASCII suffices for the keywords involved). -/
def lowerStr (s : String) : String :=
  String.mk (s.toList.map Char.toLower)

/-- The natural-language branch of `run_maintenance` (lines 168-195):
keyword classification of `user_message` against the stored snapshot. -/
def handle_user_query (db : WorkflowDB) (message : String) : String :=
  let q := lowerStr message
  match findOneWorkflow db FIXED_VEHICLE_ID with
  | none => "Your vehicle is healthy. No issues detected."
  | some doc =>
    if strContains q "health" then
      "Your vehicle health score is " ++ toString doc.overall_health_score ++ "%"
    else if strContains q "issue" || strContains q "problem" then
      if doc.issues.isEmpty then "There are no current issues."
      else "Current issues: " ++ String.intercalate ", " (doc.issues.map (fun i => i.name))
    else if strContains q "schedule" || strContains q "maintenance" then
      "Your maintenance is scheduled for " ++ doc.predicted_schedule ++ "."
    else if strContains q "engine temperature" || strContains q "engine temp" then
      "Your engine temperature is " ++
        (match doc.telemetry.engineTemp with
         | some s => s.render
         | none => "Not available") ++ "."
    else "Ask me about health, issues or schedule."

/-- The JSON payload returned by `GET /dashboard/data`. -/
structure DashboardPayload where
  telemetry : Option Telemetry
  health_score : ℤ
  component_health : Option ComponentHealth
  predicted_issues : List Issue
  anomalies : List Issue
  diagnosis : String
  customer_message : String
  schedule : String
  feedback : String
  last_updated : Option ℕ
deriving DecidableEq

/-- The fixed fallback payload of `/dashboard/data` (both the missing-
document branch and the exception handler return it, with different
customer messages). -/
def defaultDashboard (msg : String) : DashboardPayload :=
  { telemetry := none
    health_score := 100
    component_health := none
    predicted_issues := []
    anomalies := []
    diagnosis := ""
    customer_message := msg
    schedule := "No appointment needed"
    feedback := ""
    last_updated := none }

/-- `GET /dashboard/data` (lines 355-400).  The argument is the result
of the awaited `find_one`: `.error` models the `except` branch (a
persistence-layer failure), `.ok none` a vehicle with no stored
snapshot.  Python `x or default` substitutes the default exactly on
falsy values, hence the zero/empty-string tests; a stored snapshot's
telemetry dict is never empty (it always holds the vehicle id). -/
def get_dashboard_data (res : Except Unit (Option Snapshot)) : DashboardPayload :=
  match res with
  | .error _ => defaultDashboard "Error fetching data"
  | .ok none => defaultDashboard "No data available"
  | .ok (some d) =>
    { telemetry := some d.telemetry
      health_score := if d.overall_health_score == 0 then 100 else d.overall_health_score
      component_health := some d.component_health
      predicted_issues := d.issues
      anomalies := d.issues
      diagnosis := d.diagnosis_summary
      customer_message := d.customer_friendly_message
      schedule := if d.predicted_schedule == "" then "No appointment needed" else d.predicted_schedule
      feedback := d.feedback
      last_updated := some d.last_updated }

/-- The four sensor keys `/analytics/full` builds series for. -/
inductive SensorKey where
  | engineTemp
  | oilPressure
  | batteryVoltage
  | tirePressure
deriving DecidableEq

/-- `key in h["telemetry"]` followed by
`float(str(h["telemetry"][key]).replace("°C", ""))`. -/
def telemGet (t : Telemetry) : SensorKey → Option ℚ
  | .engineTemp => t.engineTemp.map TempStr.strip
  | .oilPressure => t.oilPressure
  | .batteryVoltage => t.batteryVoltage
  | .tirePressure => t.tirePressure

/-- `timestamp.strftime("%H:%M")`; clock formatting of the abstract
timestamp is itself abstracted to an injective rendering. -/
def fmtHM (ts : ℕ) : String :=
  toString ts

/-- `timestamp.strftime("Day %d — %H:%M")`, abstracted likewise. -/
def fmtDay (ts : ℕ) : String :=
  "Day " ++ toString ts

/-- Python `l[-n:]`. -/
def lastN (n : ℕ) (l : List α) : List α :=
  l.drop (l.length - n)

/-- One point of a sensor trend series. -/
structure SeriesPoint where
  time : String
  value : ℚ
deriving DecidableEq

/-- The per-sensor block of the `/analytics/full` payload. -/
structure SensorSeries where
  values : List SeriesPoint
  safe_range : ℚ × ℚ
  ai_insight : String
deriving DecidableEq

/-- `build_series(key, safe_range)` (lines 456-468): the last 24
history entries, keeping those whose telemetry has the key.  `title`
is the precomputed `key.replace('_', ' ').title()`. -/
def build_series (history : List HistoryEntry) (key : SensorKey) (title : String)
    (safe_range : ℚ × ℚ) : SensorSeries :=
  { values := (lastN 24 history).filterMap (fun h =>
      (telemGet h.telemetry key).map (fun v => ⟨fmtHM h.timestamp, v⟩))
    safe_range := safe_range
    ai_insight := title ++ " trend indicates deviation from safe operating range." }

/-- One row of the threshold-violations table. -/
structure Violation where
  parameter : String
  safe_range : String
  current : String
  deviation : String
  breach_duration : String
  status : String
deriving DecidableEq

/-- Lines 479-487: a violation row per current issue. -/
def mkViolation (i : Issue) : Violation :=
  { parameter := i.name
    safe_range := "See specs"
    current := "Out of range"
    deviation := i.severity
    breach_duration := "—"
    status := if i.severity == "high" then "Critical" else "Moderate" }

/-- One entry of the failure timeline. -/
structure TimelineEntry where
  time : String
  stage : String
  description : String
deriving DecidableEq

/-- Lines 490-497: iterate over `history[-6:]`, keep entries with
issues, headed by the first issue. -/
def failureTimeline (history : List HistoryEntry) : List TimelineEntry :=
  (lastN 6 history).filterMap (fun h =>
    match h.issues with
    | [] => none
    | i :: _ => some ⟨fmtDay h.timestamp, i.name, i.recommended_action⟩)

/-- The `/analytics/full` payload; `sensors` is `none` for the
missing-document branch (empty dict in the source). -/
structure Analytics where
  sensors : Option (SensorSeries × SensorSeries × SensorSeries × SensorSeries)
  violations : List Violation
  timeline : List TimelineEntry
deriving DecidableEq

/-- `GET /analytics/full` (lines 443-503), applied to the result of
the `find_one`. -/
def get_full_analytics (res : Option Snapshot) : Analytics :=
  match res with
  | none => ⟨none, [], []⟩
  | some doc =>
    ⟨some (build_series doc.history .engineTemp "Enginetemp" (70, 95),
           build_series doc.history .oilPressure "Oilpressure" (25, 65),
           build_series doc.history .batteryVoltage "Batteryvoltage" (12, 14),
           build_series doc.history .tirePressure "Tirepressure" (32, 36)),
     doc.issues.map mkViolation,
     failureTimeline doc.history⟩

/-! ### Helper lemmas about the threshold evaluator -/

theorem mem_if_singleton {p : Prop} [Decidable p] {a b : Issue} :
    (a ∈ if p then [b] else []) ↔ p ∧ a = b := by
  split_ifs with h <;> simp [h]

theorem mem_detectIssues (t : Telemetry) (i : Issue) :
    i ∈ detectIssues t ↔
      (getEngineTemp t > 100 ∧ i = engineTempIssue) ∨
      (getOilPressure t < 20 ∧ i = oilPressureIssue) ∨
      (getBatteryVoltage t < 12 ∧ i = batteryVoltageIssue) ∨
      (t.tirePressure.getD 32 < 30 ∧ i = tirePressureIssue) := by
  simp [detectIssues, List.mem_append, mem_if_singleton]

theorem stamp_getters (t : Telemetry) :
    getEngineTemp (stamp t) = getEngineTemp t ∧
    getOilPressure (stamp t) = getOilPressure t ∧
    getBatteryVoltage (stamp t) = getBatteryVoltage t ∧
    (stamp t).tirePressure = t.tirePressure ∧
    (stamp t).vibration = t.vibration := by
  simp [stamp, getEngineTemp, getOilPressure, getBatteryVoltage]

theorem engine_name_mem (t : Telemetry) :
    (∃ i ∈ detectIssues t, i.name = "Engine Temperature High") ↔ getEngineTemp t > 100 := by
  constructor
  · rintro ⟨i, hi, hname⟩
    rcases (mem_detectIssues t i).1 hi with ⟨h, rfl⟩ | ⟨h, rfl⟩ | ⟨h, rfl⟩ | ⟨h, rfl⟩
    · exact h
    all_goals exact absurd hname (by decide)
  · intro h
    exact ⟨engineTempIssue, (mem_detectIssues t _).2 (Or.inl ⟨h, rfl⟩), rfl⟩

theorem tire_name_mem (t : Telemetry) :
    (∃ i ∈ detectIssues t, i.name = "Tire Pressure Low") ↔ t.tirePressure.getD 32 < 30 := by
  constructor
  · rintro ⟨i, hi, hname⟩
    rcases (mem_detectIssues t i).1 hi with ⟨h, rfl⟩ | ⟨h, rfl⟩ | ⟨h, rfl⟩ | ⟨h, rfl⟩
    · exact absurd hname (by decide)
    · exact absurd hname (by decide)
    · exact absurd hname (by decide)
    · exact h
  · intro h
    exact ⟨tirePressureIssue, (mem_detectIssues t _).2 (Or.inr (Or.inr (Or.inr ⟨h, rfl⟩))), rfl⟩

/-! ### Claim theorems: threshold evaluator and scorer -/

/-- Claim C1: in the evaluation path, the issue "Engine Temperature
High" (severity high, confidence 0.9) appears in the issues list iff
the engine temperature — the `engineTemp` field with a `°C` suffix
stripped, defaulting to 90 when absent — is strictly greater than 100;
for engine temperature ≤ 100 it is never produced. -/
theorem engine_temp_rule_iff (t : Telemetry) :
    ((∃ i ∈ detectIssues t, i.name = "Engine Temperature High") ↔ getEngineTemp t > 100) ∧
    (∀ i ∈ detectIssues t, i.name = "Engine Temperature High" →
      i.severity = "high" ∧ i.confidence = 0.9) ∧
    getEngineTemp t = (t.engineTemp.getD (TempStr.plain 90)).strip := by
  refine ⟨engine_name_mem t, ?_, rfl⟩
  intro i hi hname
  rcases (mem_detectIssues t i).1 hi with ⟨h, rfl⟩ | ⟨h, rfl⟩ | ⟨h, rfl⟩ | ⟨h, rfl⟩
  · exact ⟨rfl, rfl⟩
  all_goals exact absurd hname (by decide)

/-- Claim C9: the issues list contains "Tire Pressure Low" iff the
computed component-health tire label is "Low"; the two defaults (32
for the issue rule, 30 for the label) agree on absent fields, where no
issue is raised and the label is "Normal". -/
theorem tire_issue_iff_label (t : Telemetry) :
    ((∃ i ∈ detectIssues t, i.name = "Tire Pressure Low") ↔
      (componentHealth t).tirePressure = "Low") ∧
    (t.tirePressure = none →
      (componentHealth t).tirePressure = "Normal" ∧
      ∀ i ∈ detectIssues t, i.name ≠ "Tire Pressure Low") := by
  constructor
  · rw [tire_name_mem]
    cases htp : t.tirePressure with
    | none =>
      norm_num [componentHealth, htp]
      decide
    | some v =>
      simp only [componentHealth, htp, Option.getD_some]
      by_cases hv : v < 30
      · simp [hv]
      · simp [hv]
  · intro hnone
    have hlabel : (componentHealth t).tirePressure = "Normal" := by
      simp [componentHealth, hnone]
    refine ⟨hlabel, fun i hi hname => ?_⟩
    have : t.tirePressure.getD 32 < 30 := (tire_name_mem t).1 ⟨i, hi, hname⟩
    rw [hnone] at this
    norm_num at this

/-- The telemetry reading of the spec's worked example:
`{engineTemp: "105°C", oilPressure: 15, batteryVoltage: 12.6,
tirePressure: 32}`. -/
def exampleTelemetry : Telemetry :=
  ⟨some (.withUnit 105), some 15, some 12.6, some 32, none, none⟩

theorem detect_example :
    detectIssues (stamp exampleTelemetry) = [engineTempIssue, oilPressureIssue] := by
  norm_num [detectIssues, getEngineTemp, getOilPressure, getBatteryVoltage,
    stamp, exampleTelemetry, TempStr.strip]

theorem componentHealth_example :
    componentHealth (stamp exampleTelemetry) = ⟨70, 100, 75, "Normal"⟩ := by
  norm_num [componentHealth, pyInt, getEngineTemp, getBatteryVoltage,
    calculate_brake_health, stamp, exampleTelemetry, TempStr.strip]

theorem overall_example : overallHealth (stamp exampleTelemetry) = 86 := by
  rw [overallHealth, componentHealth_example]
  norm_num [pyInt]

/-- Claim C3: on the worked example, `run_maintenance` produces
exactly [Engine Temperature High, Oil Pressure Low] in detection
order, engineHealth 70, battery 100, brakes 75, tire label "Normal",
and overall score 86. -/
theorem example_run_values :
    (run_maintenance ⟨[], []⟩ exampleTelemetry 0).2.issues =
      [engineTempIssue, oilPressureIssue] ∧
    engineTempIssue.name = "Engine Temperature High" ∧
    oilPressureIssue.name = "Oil Pressure Low" ∧
    (componentHealth (stamp exampleTelemetry)).engineHealth = 70 ∧
    (componentHealth (stamp exampleTelemetry)).battery = 100 ∧
    (componentHealth (stamp exampleTelemetry)).brakes = 75 ∧
    (componentHealth (stamp exampleTelemetry)).tirePressure = "Normal" ∧
    (run_maintenance ⟨[], []⟩ exampleTelemetry 0).2.health_score = 86 := by
  refine ⟨?_, rfl, rfl, ?_, ?_, ?_, ?_, ?_⟩ <;>
    simp [run_maintenance, detect_example, componentHealth_example, overall_example]

/-! ### Claim C2: truncation versus rounding in the health scorer -/

theorem pyInt_eq_floor {q : ℚ} (h : 0 ≤ q) : pyInt q = ⌊q⌋ :=
  if_pos h

theorem brake_health_nonneg (v : Option ℚ) : 0 ≤ calculate_brake_health v := by
  cases v with
  | none => norm_num [calculate_brake_health]
  | some x =>
    simp only [calculate_brake_health]
    split_ifs <;> norm_num

/-- A reading whose battery quotient has fractional part 0.9:
`12.5874 / 12.6 × 100 = 99.9`. -/
def roundExampleTelemetry : Telemetry :=
  ⟨none, none, some 12.5874, none, none, none⟩

/-- Claim C2 counterexample: the code computes the battery score with
Python `int(...)`, which truncates; at battery voltage 12.5874 the
quotient is 99.9, so the stored score is 99 while rounding to the
nearest integer would give 100.  The claim "both values are rounded to
the nearest integer" is therefore false. -/
theorem battery_score_not_rounded :
    (componentHealth roundExampleTelemetry).battery = 99 ∧
    round (getBatteryVoltage roundExampleTelemetry / 12.6 * 100) = 100 ∧
    (componentHealth roundExampleTelemetry).battery ≠
      round (getBatteryVoltage roundExampleTelemetry / 12.6 * 100) := by
  have hq : getBatteryVoltage roundExampleTelemetry / 12.6 * 100 = 999/10 := by
    norm_num [getBatteryVoltage, roundExampleTelemetry]
  have h1 : (componentHealth roundExampleTelemetry).battery = 99 := by
    simp only [componentHealth, hq]
    norm_num [pyInt]
  have h2 : round (getBatteryVoltage roundExampleTelemetry / 12.6 * 100) = 100 := by
    rw [hq, round_eq]
    norm_num
  exact ⟨h1, h2, by rw [h1, h2]; norm_num⟩

/-- Claim C2 (amended): the scorer truncates instead of rounding:
battery = int(batteryVoltage / 12.6 × 100) and overall =
int((engineHealth + battery + brakes + tireContribution) / 4), where
Python `int` truncates toward zero — equal to the floor here since both
quantities are nonnegative whenever the battery voltage is — and
tireContribution is 100 when the tire label is "Normal" and 70
otherwise. -/
theorem health_scores_truncate (t : Telemetry) (hb : 0 ≤ getBatteryVoltage t) :
    (componentHealth t).battery = ⌊getBatteryVoltage t / 12.6 * 100⌋ ∧
    overallHealth t =
      ⌊((componentHealth t).engineHealth + ((componentHealth t).battery : ℚ) +
        (componentHealth t).brakes +
        (if (componentHealth t).tirePressure = "Normal" then 100 else 70)) / 4⌋ := by
  have hb' : 0 ≤ getBatteryVoltage t / 12.6 * 100 :=
    mul_nonneg (div_nonneg hb (by norm_num)) (by norm_num)
  have hbat : (componentHealth t).battery = ⌊getBatteryVoltage t / 12.6 * 100⌋ := by
    simp [componentHealth, pyInt_eq_floor hb']
  refine ⟨hbat, ?_⟩
  have h1 : (0:ℚ) ≤ (componentHealth t).engineHealth := by
    simp only [componentHealth]
    exact le_max_left _ _
  have h2 : (0:ℚ) ≤ ((componentHealth t).battery : ℚ) := by
    rw [hbat]
    exact_mod_cast Int.floor_nonneg.2 hb'
  have h3 : (0:ℚ) ≤ (componentHealth t).brakes := by
    simp only [componentHealth]
    exact brake_health_nonneg _
  have h4 : (0:ℚ) ≤ (if (componentHealth t).tirePressure = "Normal" then (100:ℚ) else 70) := by
    split_ifs <;> norm_num
  rw [overallHealth]
  exact pyInt_eq_floor (div_nonneg (by linarith) (by norm_num))

/-- Witness for `health_scores_truncate` at the worked example. -/
theorem health_scores_truncate_witness :
    0 ≤ getBatteryVoltage exampleTelemetry ∧
    ((componentHealth exampleTelemetry).battery =
        ⌊getBatteryVoltage exampleTelemetry / 12.6 * 100⌋ ∧
      overallHealth exampleTelemetry =
        ⌊((componentHealth exampleTelemetry).engineHealth +
          ((componentHealth exampleTelemetry).battery : ℚ) +
          (componentHealth exampleTelemetry).brakes +
          (if (componentHealth exampleTelemetry).tirePressure = "Normal" then 100 else 70)) / 4⌋) :=
  ⟨by norm_num [getBatteryVoltage, exampleTelemetry],
   health_scores_truncate exampleTelemetry
     (by norm_num [getBatteryVoltage, exampleTelemetry])⟩

/-! ### Claim C4: the workflow snapshot upsert -/

/-- Number of workflow documents stored for a vehicle identifier. -/
def countVid (db : WorkflowDB) (vid : String) : ℕ :=
  (db.filter (fun d => d.vehicle_id == vid)).length

theorem findOneWorkflow_replaceOne (db : WorkflowDB) (vid : String) (doc : Snapshot)
    (h : doc.vehicle_id = vid) :
    findOneWorkflow (replaceOneWorkflow db vid doc) vid = some doc := by
  induction db with
  | nil => simp [replaceOneWorkflow, findOneWorkflow, h]
  | cons d ds ih =>
    by_cases hd : (d.vehicle_id == vid) = true
    · simp [replaceOneWorkflow, hd, findOneWorkflow, h]
    · simp only [replaceOneWorkflow, hd, Bool.false_eq_true, if_false]
      simpa [findOneWorkflow, hd] using ih

theorem countVid_replaceOne (db : WorkflowDB) (vid : String) (doc : Snapshot)
    (h : doc.vehicle_id = vid) (hle : countVid db vid ≤ 1) :
    countVid (replaceOneWorkflow db vid doc) vid = 1 := by
  induction db with
  | nil => simp [replaceOneWorkflow, countVid, h]
  | cons d ds ih =>
    by_cases hd : (d.vehicle_id == vid) = true
    · have hds : countVid ds vid = 0 := by
        have : 1 + countVid ds vid ≤ 1 := by
          simpa [countVid, hd, Nat.add_comm] using hle
        omega
      have hfil : ds.filter (fun d => d.vehicle_id == vid) = [] :=
        List.eq_nil_of_length_eq_zero hds
      simp [replaceOneWorkflow, hd, countVid, h, hfil]
    · have hle' : countVid ds vid ≤ 1 := by
        simpa [countVid, hd] using hle
      simp only [replaceOneWorkflow, hd, Bool.false_eq_true, if_false]
      simpa [countVid, hd] using ih hle'

theorem run_maintenance_workflowDB (st : SysState) (r : Telemetry) (n : ℕ) :
    (run_maintenance st r n).1.workflowDB =
      replaceOneWorkflow st.workflowDB FIXED_VEHICLE_ID
        (buildSnapshot (stamp r) n
          (storedHistory st.workflowDB ++ [⟨n, stamp r, detectIssues (stamp r)⟩])) := by
  simp [run_maintenance]

theorem storedHistory_replaceOne (db : WorkflowDB) (doc : Snapshot)
    (h : doc.vehicle_id = FIXED_VEHICLE_ID) :
    storedHistory (replaceOneWorkflow db FIXED_VEHICLE_ID doc) = doc.history := by
  unfold storedHistory
  rw [findOneWorkflow_replaceOne db FIXED_VEHICLE_ID doc h]

theorem storedHistory_after_run (st : SysState) (r : Telemetry) (n : ℕ) :
    storedHistory (run_maintenance st r n).1.workflowDB =
      storedHistory st.workflowDB ++ [⟨n, stamp r, detectIssues (stamp r)⟩] := by
  rw [run_maintenance_workflowDB, storedHistory_replaceOne _ _ rfl, buildSnapshot]

/-- Claim C4: sequential evaluations keep at most one workflow
document for the fixed vehicle (exactly one once a run happened); the
snapshot is replaced wholesale, its non-history fields a function of
the most recent run alone; each run appends exactly one
{timestamp, telemetry, issues} entry, most-recent-last, so two runs
append exactly two entries in call order. -/
theorem workflow_upsert_spec (st : SysState) (r1 r2 : Telemetry) (n1 n2 : ℕ)
    (h : countVid st.workflowDB FIXED_VEHICLE_ID ≤ 1) :
    countVid (run_maintenance st r1 n1).1.workflowDB FIXED_VEHICLE_ID = 1 ∧
    countVid (run_maintenance (run_maintenance st r1 n1).1 r2 n2).1.workflowDB
      FIXED_VEHICLE_ID = 1 ∧
    findOneWorkflow (run_maintenance st r1 n1).1.workflowDB FIXED_VEHICLE_ID =
      some (buildSnapshot (stamp r1) n1
        (storedHistory st.workflowDB ++ [⟨n1, stamp r1, detectIssues (stamp r1)⟩])) ∧
    findOneWorkflow (run_maintenance (run_maintenance st r1 n1).1 r2 n2).1.workflowDB
      FIXED_VEHICLE_ID =
      some (buildSnapshot (stamp r2) n2
        (storedHistory st.workflowDB ++
          [⟨n1, stamp r1, detectIssues (stamp r1)⟩,
           ⟨n2, stamp r2, detectIssues (stamp r2)⟩])) := by
  have h1 : countVid (run_maintenance st r1 n1).1.workflowDB FIXED_VEHICLE_ID = 1 := by
    rw [run_maintenance_workflowDB]
    exact countVid_replaceOne _ _ _ rfl h
  refine ⟨h1, ?_, ?_, ?_⟩
  · rw [run_maintenance_workflowDB]
    exact countVid_replaceOne _ _ _ rfl (le_of_eq h1)
  · rw [run_maintenance_workflowDB]
    exact findOneWorkflow_replaceOne _ _ _ rfl
  · rw [run_maintenance_workflowDB,
      findOneWorkflow_replaceOne ((run_maintenance st r1 n1).1.workflowDB) FIXED_VEHICLE_ID _ rfl,
      storedHistory_after_run]
    simp

/-- Witness for `workflow_upsert_spec`: two runs of the worked example
from the empty store. -/
theorem workflow_upsert_spec_witness :
    countVid (SysState.mk [] []).workflowDB FIXED_VEHICLE_ID ≤ 1 ∧
    (countVid (run_maintenance ⟨[], []⟩ exampleTelemetry 0).1.workflowDB FIXED_VEHICLE_ID = 1 ∧
     countVid (run_maintenance (run_maintenance ⟨[], []⟩ exampleTelemetry 0).1
        exampleTelemetry 1).1.workflowDB FIXED_VEHICLE_ID = 1 ∧
     findOneWorkflow (run_maintenance ⟨[], []⟩ exampleTelemetry 0).1.workflowDB FIXED_VEHICLE_ID =
       some (buildSnapshot (stamp exampleTelemetry) 0
         (storedHistory (SysState.mk [] []).workflowDB ++
           [⟨0, stamp exampleTelemetry, detectIssues (stamp exampleTelemetry)⟩])) ∧
     findOneWorkflow (run_maintenance (run_maintenance ⟨[], []⟩ exampleTelemetry 0).1
        exampleTelemetry 1).1.workflowDB FIXED_VEHICLE_ID =
       some (buildSnapshot (stamp exampleTelemetry) 1
         (storedHistory (SysState.mk [] []).workflowDB ++
           [⟨0, stamp exampleTelemetry, detectIssues (stamp exampleTelemetry)⟩,
            ⟨1, stamp exampleTelemetry, detectIssues (stamp exampleTelemetry)⟩]))) :=
  ⟨by decide,
   workflow_upsert_spec ⟨[], []⟩ exampleTelemetry exampleTelemetry 0 1 (by decide)⟩

/-! ### Claims C5 and C10: appointment creation and deduplication -/

/-- Number of stored appointments matching the duplicate-check filter
(fixed vehicle, date "Tomorrow", time "10:00 AM", status Pending). -/
def countPendingSlot (db : ApptDB) : ℕ :=
  (db.filter (apptMatches FIXED_VEHICLE_ID "Tomorrow" "10:00 AM")).length

/-- The appointment document inserted at lines 315-323 for a run with
issue list `issues` at time `n`. -/
def newAppt (issues : List Issue) (n : ℕ) : Appt :=
  ⟨FIXED_VEHICLE_ID, String.intercalate ", " (issues.map (fun i => i.name)),
    firstToken (scheduleText issues), "10:00 AM", "Pending", true, n⟩

theorem firstToken_schedule (issues : List Issue) (h : issues.isEmpty = false) :
    firstToken (scheduleText issues) = "Tomorrow" := by
  rw [scheduleText, if_neg (by simp [h])]
  decide

theorem run_maintenance_apptDB (st : SysState) (r : Telemetry) (n : ℕ) :
    (run_maintenance st r n).1.apptDB =
      (if (detectIssues (stamp r)).isEmpty then st.apptDB
       else
         match findPendingAppt st.apptDB FIXED_VEHICLE_ID
             (firstToken (scheduleText (detectIssues (stamp r)))) "10:00 AM" with
         | some _ => st.apptDB
         | none => st.apptDB ++ [newAppt (detectIssues (stamp r)) n]) := rfl

theorem filter_eq_nil_of_find?_none {α : Type} {p : α → Bool} {l : List α}
    (h : l.find? p = none) : l.filter p = [] := by
  induction l with
  | nil => rfl
  | cons a l ih =>
    cases hpa : p a with
    | true => simp [List.find?, hpa] at h
    | false =>
      simp only [List.find?, hpa] at h
      simp [List.filter, hpa, ih h]

/-- Claim C5: an appointment is inserted only when the run produced at
least one issue and no Pending appointment with the same vehicle, date
and time exists (never when issues is empty); hence submitting the same
issue-producing telemetry twice in immediate succession leaves exactly
one matching Pending appointment. -/
theorem appointment_dedup_spec (st : SysState) (r : Telemetry) (n1 n2 : ℕ)
    (hIss : (detectIssues (stamp r)).isEmpty = false)
    (hNone : findPendingAppt st.apptDB FIXED_VEHICLE_ID "Tomorrow" "10:00 AM" = none) :
    (∀ r0 : Telemetry, ∀ n0 : ℕ, (detectIssues (stamp r0)).isEmpty = true →
      (run_maintenance st r0 n0).1.apptDB = st.apptDB) ∧
    (∀ r1 : Telemetry, ∀ m : ℕ, (run_maintenance st r1 m).1.apptDB ≠ st.apptDB →
      (detectIssues (stamp r1)).isEmpty = false ∧
      findPendingAppt st.apptDB FIXED_VEHICLE_ID "Tomorrow" "10:00 AM" = none ∧
      (run_maintenance st r1 m).1.apptDB =
        st.apptDB ++ [newAppt (detectIssues (stamp r1)) m]) ∧
    countPendingSlot
      (run_maintenance (run_maintenance st r n1).1 r n2).1.apptDB = 1 := by
  have hmatch : ∀ issues : List Issue, ∀ m : ℕ, issues.isEmpty = false →
      apptMatches FIXED_VEHICLE_ID "Tomorrow" "10:00 AM" (newAppt issues m) = true := by
    intro issues m hI
    simp [apptMatches, newAppt, firstToken_schedule _ hI]
  refine ⟨?_, ?_, ?_⟩
  · intro r0 n0 h0
    rw [run_maintenance_apptDB, if_pos (by simp [h0])]
  · intro r1 m hne
    rw [run_maintenance_apptDB] at hne ⊢
    by_cases hI : (detectIssues (stamp r1)).isEmpty = true
    · rw [if_pos (by simp [hI])] at hne
      exact absurd rfl hne
    · have hI' : (detectIssues (stamp r1)).isEmpty = false := by
        simpa using hI
      rw [firstToken_schedule _ hI'] at hne ⊢
      cases hfind : findPendingAppt st.apptDB FIXED_VEHICLE_ID "Tomorrow" "10:00 AM" with
      | some a =>
        rw [if_neg (by simp [hI']), hfind] at hne
        exact absurd rfl hne
      | none =>
        refine ⟨hI', rfl, ?_⟩
        rw [if_neg (by simp [hI'])]
  · have hadb1 : (run_maintenance st r n1).1.apptDB =
        st.apptDB ++ [newAppt (detectIssues (stamp r)) n1] := by
      rw [run_maintenance_apptDB, if_neg (by simp [hIss]),
        firstToken_schedule _ hIss, hNone]
    have hfind2 : findPendingAppt (run_maintenance st r n1).1.apptDB
        FIXED_VEHICLE_ID "Tomorrow" "10:00 AM" =
          some (newAppt (detectIssues (stamp r)) n1) := by
      rw [hadb1, findPendingAppt, List.find?_append]
      rw [findPendingAppt] at hNone
      rw [hNone]
      simp [List.find?, hmatch _ _ hIss]
    rw [run_maintenance_apptDB, if_neg (by simp [hIss]),
      firstToken_schedule _ hIss, hfind2, hadb1, countPendingSlot,
      List.filter_append]
    rw [findPendingAppt] at hNone
    rw [filter_eq_nil_of_find?_none hNone]
    simp [hmatch _ _ hIss]

/-- Witness for `appointment_dedup_spec`: the worked example submitted
twice from empty stores. -/
theorem appointment_dedup_spec_witness :
    (detectIssues (stamp exampleTelemetry)).isEmpty = false ∧
    findPendingAppt (SysState.mk [] []).apptDB FIXED_VEHICLE_ID "Tomorrow" "10:00 AM" = none ∧
    countPendingSlot
      (run_maintenance (run_maintenance ⟨[], []⟩ exampleTelemetry 0).1
        exampleTelemetry 1).1.apptDB = 1 := by
  have hI : (detectIssues (stamp exampleTelemetry)).isEmpty = false := by
    rw [detect_example]
    rfl
  exact ⟨hI, rfl, (appointment_dedup_spec ⟨[], []⟩ exampleTelemetry 0 1 hI rfl).2.2⟩

/-- The filter of the "at most one Pending AI appointment" invariant:
fixed vehicle, Pending, recommended by the AI. -/
def pendingAIPred (a : Appt) : Bool :=
  a.vehicle_id == FIXED_VEHICLE_ID && a.status == "Pending" && a.recommended_by_ai

def pendingAICount (db : ApptDB) : ℕ :=
  (db.filter pendingAIPred).length

/-- The constant fields shared by every appointment the handler
creates. -/
def apptConstants (a : Appt) : Prop :=
  a.vehicle_id = FIXED_VEHICLE_ID ∧ a.date = "Tomorrow" ∧ a.time = "10:00 AM" ∧
    a.status = "Pending" ∧ a.recommended_by_ai = true

theorem apptInv_run (st : SysState) (r : Telemetry) (n : ℕ)
    (h1 : ∀ a ∈ st.apptDB, apptConstants a) (h2 : pendingAICount st.apptDB ≤ 1) :
    (∀ a ∈ (run_maintenance st r n).1.apptDB, apptConstants a) ∧
      pendingAICount (run_maintenance st r n).1.apptDB ≤ 1 := by
  rw [run_maintenance_apptDB]
  by_cases hI : (detectIssues (stamp r)).isEmpty = true
  · rw [if_pos (by simp [hI])]
    exact ⟨h1, h2⟩
  · have hI' : (detectIssues (stamp r)).isEmpty = false := by simpa using hI
    rw [if_neg (by simp [hI']), firstToken_schedule _ hI']
    cases hfind : findPendingAppt st.apptDB FIXED_VEHICLE_ID "Tomorrow" "10:00 AM" with
    | some a => exact ⟨h1, h2⟩
    | none =>
      have hdb : st.apptDB = [] := by
        cases hdb : st.apptDB with
        | nil => rfl
        | cons a l =>
          have ha : apptConstants a := h1 a (by simp [hdb])
          have hm : apptMatches FIXED_VEHICLE_ID "Tomorrow" "10:00 AM" a = true := by
            simp [apptMatches, ha.1, ha.2.1, ha.2.2.1, ha.2.2.2.1]
          rw [findPendingAppt, hdb] at hfind
          simp [List.find?, hm] at hfind
      constructor
      · intro a hmem
        rw [hdb] at hmem
        simp only [List.nil_append, List.mem_singleton] at hmem
        subst hmem
        refine ⟨rfl, firstToken_schedule _ hI', rfl, rfl, rfl⟩
      · rw [hdb]
        simp [pendingAICount, pendingAIPred, newAppt, List.filter]

theorem apptInv_runSeq (inputs : List (Telemetry × ℕ)) (st : SysState)
    (h1 : ∀ a ∈ st.apptDB, apptConstants a) (h2 : pendingAICount st.apptDB ≤ 1) :
    (∀ a ∈ (runSeq st inputs).apptDB, apptConstants a) ∧
      pendingAICount (runSeq st inputs).apptDB ≤ 1 := by
  induction inputs generalizing st with
  | nil => exact ⟨h1, h2⟩
  | cons p rest ih =>
    obtain ⟨r, n⟩ := p
    have step := apptInv_run st r n h1 h2
    exact ih _ step.1 step.2

/-- Claim C10: every appointment created by `run_maintenance` has date
"Tomorrow" — the first token of the fixed schedule text — and time
"10:00 AM"; because the duplicate check compares exactly these
constants, any sequence of sequential runs starting from empty stores
leaves at most one Pending AI-recommended appointment for the fixed
vehicle, regardless of the timestamps involved. -/
theorem appointment_constants_invariant (inputs : List (Telemetry × ℕ)) :
    firstToken (scheduleText [engineTempIssue]) = "Tomorrow" ∧
    (∀ st : SysState, ∀ r : Telemetry, ∀ n : ℕ,
      ∀ a ∈ (run_maintenance st r n).1.apptDB, a ∉ st.apptDB →
        a.date = "Tomorrow" ∧ a.time = "10:00 AM" ∧ a.status = "Pending" ∧
          a.recommended_by_ai = true) ∧
    (∀ a ∈ (runSeq ⟨[], []⟩ inputs).apptDB,
      a.date = "Tomorrow" ∧ a.time = "10:00 AM" ∧ a.recommended_by_ai = true) ∧
    pendingAICount (runSeq ⟨[], []⟩ inputs).apptDB ≤ 1 := by
  have hinv := apptInv_runSeq inputs ⟨[], []⟩ (by intro a ha; simp at ha) (by decide)
  refine ⟨by decide, ?_, ?_, hinv.2⟩
  · intro st r n a hmem hnotin
    rw [run_maintenance_apptDB] at hmem
    by_cases hI : (detectIssues (stamp r)).isEmpty = true
    · rw [if_pos (by simp [hI])] at hmem
      exact absurd hmem hnotin
    · have hI' : (detectIssues (stamp r)).isEmpty = false := by simpa using hI
      rw [if_neg (by simp [hI'])] at hmem
      cases hfind : findPendingAppt st.apptDB FIXED_VEHICLE_ID
          (firstToken (scheduleText (detectIssues (stamp r)))) "10:00 AM" with
      | some b =>
        rw [hfind] at hmem
        exact absurd hmem hnotin
      | none =>
        rw [hfind] at hmem
        rcases List.mem_append.1 hmem with h | h
        · exact absurd h hnotin
        · simp only [List.mem_singleton] at h
          subst h
          exact ⟨firstToken_schedule _ hI', rfl, rfl, rfl⟩
  · intro a ha
    have := hinv.1 a ha
    exact ⟨this.2.1, this.2.2.1, this.2.2.2.2⟩

/-! ### Claim C6: the natural-language query branch -/

/-- The query categories, in the priority order of the if-chain at
lines 177-195. -/
inductive QueryCat where
  | health
  | issues
  | schedule
  | engineTemp
  | other
deriving DecidableEq

/-- Classification by keyword containment in fixed priority order, as
the claim words it: "health" first, then "issue"/"problem", then
"schedule"/"maintenance", then "engine temperature"/"engine temp",
else the generic category. -/
def classifyQuery (q : String) : QueryCat :=
  if strContains q "health" then .health
  else if strContains q "issue" || strContains q "problem" then .issues
  else if strContains q "schedule" || strContains q "maintenance" then .schedule
  else if strContains q "engine temperature" || strContains q "engine temp" then .engineTemp
  else .other

/-- The reply each category produces from the stored snapshot. -/
def replyFor (doc : Snapshot) : QueryCat → String
  | .health => "Your vehicle health score is " ++ toString doc.overall_health_score ++ "%"
  | .issues =>
    if doc.issues.isEmpty then "There are no current issues."
    else "Current issues: " ++ String.intercalate ", " (doc.issues.map (fun i => i.name))
  | .schedule => "Your maintenance is scheduled for " ++ doc.predicted_schedule ++ "."
  | .engineTemp => "Your engine temperature is " ++
      (match doc.telemetry.engineTemp with
       | some s => s.render
       | none => "Not available") ++ "."
  | .other => "Ask me about health, issues or schedule."

/-- The workflow store after one evaluation of the worked example
(stored overall score 86). -/
def exampleDB : WorkflowDB :=
  (run_maintenance ⟨[], []⟩ exampleTelemetry 0).1.workflowDB

/-- Claim C6: a free-text query is classified by keyword containment
in fixed priority order against the single persisted snapshot; with
no snapshot a canned healthy message is returned regardless of the
question; with stored overall score 86 the message "What's my vehicle
health?" yields the reply "Your vehicle health score is 86%". -/
theorem query_routing_spec (db : WorkflowDB) (msg : String) :
    (findOneWorkflow db FIXED_VEHICLE_ID = none →
      handle_user_query db msg = "Your vehicle is healthy. No issues detected.") ∧
    (∀ doc : Snapshot, findOneWorkflow db FIXED_VEHICLE_ID = some doc →
      handle_user_query db msg = replyFor doc (classifyQuery (lowerStr msg))) ∧
    (∃ doc : Snapshot, findOneWorkflow exampleDB FIXED_VEHICLE_ID = some doc ∧
      doc.overall_health_score = 86) ∧
    handle_user_query exampleDB "What\x27s my vehicle health?" =
      "Your vehicle health score is 86%" := by
  have hfind : findOneWorkflow exampleDB FIXED_VEHICLE_ID =
      some (buildSnapshot (stamp exampleTelemetry) 0
        (storedHistory (SysState.mk [] []).workflowDB ++
          [⟨0, stamp exampleTelemetry, detectIssues (stamp exampleTelemetry)⟩])) := by
    rw [exampleDB, run_maintenance_workflowDB]
    exact findOneWorkflow_replaceOne _ _ _ rfl
  refine ⟨?_, ?_, ?_, ?_⟩
  · intro h
    simp [handle_user_query, h]
  · intro doc h
    by_cases h1 : strContains (lowerStr msg) "health" = true
    · simp [handle_user_query, h, classifyQuery, replyFor, h1]
    · by_cases h2 : (strContains (lowerStr msg) "issue" ||
          strContains (lowerStr msg) "problem") = true
      · simp [handle_user_query, h, classifyQuery, replyFor, h1, h2]
      · by_cases h3 : (strContains (lowerStr msg) "schedule" ||
            strContains (lowerStr msg) "maintenance") = true
        · simp [handle_user_query, h, classifyQuery, replyFor, h1, h2, h3]
        · by_cases h4 : (strContains (lowerStr msg) "engine temperature" ||
              strContains (lowerStr msg) "engine temp") = true
          · simp [handle_user_query, h, classifyQuery, replyFor, h1, h2, h3, h4]
          · simp [handle_user_query, h, classifyQuery, replyFor, h1, h2, h3, h4]
  · exact ⟨_, hfind, by simp [buildSnapshot, overall_example]⟩
  · rw [handle_user_query]
    simp only [hfind]
    rw [if_pos (by decide)]
    simp [buildSnapshot, overall_example]
    decide

/-! ### Claim C7: dashboard safe defaults -/

/-- Claim C7: `/dashboard/data` for a vehicle with no stored snapshot
returns health_score 100 with empty telemetry, component_health,
predicted_issues and anomalies, and never raises; a persistence-layer
read failure is caught and the same safe default payload is returned
instead of propagating. -/
theorem dashboard_safe_defaults :
    (∀ db : WorkflowDB, findOneWorkflow db FIXED_VEHICLE_ID = none →
      get_dashboard_data (Except.ok (findOneWorkflow db FIXED_VEHICLE_ID)) =
        defaultDashboard "No data available") ∧
    (∀ e : Unit, get_dashboard_data (Except.error e) =
      defaultDashboard "Error fetching data") ∧
    (∀ msg : String,
      (defaultDashboard msg).health_score = 100 ∧
      (defaultDashboard msg).telemetry = none ∧
      (defaultDashboard msg).component_health = none ∧
      (defaultDashboard msg).predicted_issues = [] ∧
      (defaultDashboard msg).anomalies = []) := by
  refine ⟨?_, fun e => rfl, fun msg => ⟨rfl, rfl, rfl, rfl, rfl⟩⟩
  intro db h
  rw [h]
  rfl

/-! ### Claim C8: the analytics payload -/

/-- A reading with every sensor field absent. -/
def emptyTelemetry : Telemetry :=
  ⟨none, none, none, none, none, none⟩

/-- A stored document whose history holds seven entries, of which only
the oldest carries an issue. -/
def timelineDoc : Snapshot :=
  { vehicle_id := FIXED_VEHICLE_ID
    telemetry := emptyTelemetry
    issues := []
    component_health := ⟨100, 100, 75, "Normal"⟩
    overall_health_score := 93
    diagnosis_summary := "No issues detected."
    customer_friendly_message := "Everything is normal."
    predicted_schedule := "No appointment needed"
    feedback := "System operating normally."
    last_updated := 6
    history := ⟨0, emptyTelemetry, [engineTempIssue]⟩ ::
      (List.range 6).map (fun k => ⟨k + 1, emptyTelemetry, []⟩) }

/-- Claim C8 counterexample: the failure timeline is built only from
the last six history entries, keeping those with issues.  On a stored
document with seven history entries where only the oldest had issues,
the timeline is empty: it has neither 6 entries nor an entry derived
from the issue-bearing history entry. -/
theorem timeline_window_counterexample :
    (timelineDoc.history.headD ⟨0, emptyTelemetry, []⟩).issues.isEmpty = false ∧
    timelineDoc.history.length = 7 ∧
    (get_full_analytics (some timelineDoc)).timeline = [] ∧
    (get_full_analytics (some timelineDoc)).timeline.length ≠ 6 := by
  decide

/-- The series points of the claim, phrased over the last-24 window
written as reverse/take/reverse. -/
def seriesValuesSpec (history : List HistoryEntry) (key : SensorKey) : List SeriesPoint :=
  ((history.reverse.take 24).reverse).filterMap (fun h =>
    (telemGet h.telemetry key).map (fun v => ⟨fmtHM h.timestamp, v⟩))

/-- The timeline of the claim: the last 6 history entries, restricted
to those that had issues, one timeline entry each. -/
def timelineSpec (history : List HistoryEntry) : List TimelineEntry :=
  ((history.reverse.take 6).reverse.filter (fun h => !h.issues.isEmpty)).map
    (fun h => ⟨fmtDay h.timestamp, (h.issues.headD ⟨"", "", 0, ""⟩).name,
      (h.issues.headD ⟨"", "", 0, ""⟩).recommended_action⟩)

theorem lastN_eq_reverse_take (n : ℕ) (l : List HistoryEntry) :
    lastN n l = (l.reverse.take n).reverse :=
  List.rtake_eq_reverse_take_reverse ..

theorem filterMap_timeline (L : List HistoryEntry) :
    (L.filterMap (fun h => match h.issues with
      | [] => none
      | i :: _ => some (⟨fmtDay h.timestamp, i.name, i.recommended_action⟩ : TimelineEntry))) =
    (L.filter (fun h => !h.issues.isEmpty)).map
      (fun h => ⟨fmtDay h.timestamp, (h.issues.headD ⟨"", "", 0, ""⟩).name,
        (h.issues.headD ⟨"", "", 0, ""⟩).recommended_action⟩) := by
  induction L with
  | nil => rfl
  | cons h l ih =>
    cases hIss : h.issues with
    | nil => simp [List.filterMap_cons, List.filter_cons, hIss, ih]
    | cons i rest => simp [List.filterMap_cons, List.filter_cons, hIss, ih]

/-- Claim C8 (amended): for each of the four sensors the payload holds
a time series drawn from the last 24 history entries (keeping only
entries whose telemetry contains that sensor's key) with the fixed
safe ranges; a violations list mapped from the current issues; and an
at-most-6-entry failure timeline drawn from the last 6 history
entries, keeping exactly those that had issues (issue-bearing entries
before that window are not represented). -/
theorem analytics_payload_spec (doc : Snapshot) :
    (∃ s1 s2 s3 s4 : SensorSeries,
      (get_full_analytics (some doc)).sensors = some (s1, s2, s3, s4) ∧
      s1.values = seriesValuesSpec doc.history .engineTemp ∧
      s2.values = seriesValuesSpec doc.history .oilPressure ∧
      s3.values = seriesValuesSpec doc.history .batteryVoltage ∧
      s4.values = seriesValuesSpec doc.history .tirePressure ∧
      s1.safe_range = (70, 95) ∧ s2.safe_range = (25, 65) ∧
      s3.safe_range = (12, 14) ∧ s4.safe_range = (32, 36)) ∧
    (get_full_analytics (some doc)).violations = doc.issues.map mkViolation ∧
    (get_full_analytics (some doc)).timeline = timelineSpec doc.history ∧
    (get_full_analytics (some doc)).timeline.length ≤ 6 := by
  have ht : (get_full_analytics (some doc)).timeline = timelineSpec doc.history := by
    show failureTimeline doc.history = _
    rw [failureTimeline, lastN_eq_reverse_take, filterMap_timeline, timelineSpec]
  refine ⟨⟨_, _, _, _, rfl, ?_, ?_, ?_, ?_, rfl, rfl, rfl, rfl⟩, rfl, ht, ?_⟩
  · simp [build_series, seriesValuesSpec, lastN_eq_reverse_take]
  · simp [build_series, seriesValuesSpec, lastN_eq_reverse_take]
  · simp [build_series, seriesValuesSpec, lastN_eq_reverse_take]
  · simp [build_series, seriesValuesSpec, lastN_eq_reverse_take]
  · have h1 := List.length_filter_le (fun h => !h.issues.isEmpty)
      (doc.history.reverse.take 6).reverse
    have h2 : ((doc.history.reverse.take 6).reverse).length ≤ 6 := by
      rw [List.length_reverse]
      exact List.length_take_le ..
    rw [ht]
    simp only [timelineSpec, List.length_map]
    omega

end Trial
